import Mathlib

/-!
Shallow embedding of `src/platform_impl/windows/menu.rs` (tao, Windows menu
subsystem): menu-tree construction, accelerator translation and formatting,
the identifier registry, and the command-dispatch routine `subclass_proc`.
Native winapi side effects (AppendMenuW, SendInput, ShowWindow, event
emission) are modelled as explicit data: appended entries become list
elements, emitted events and executed actions become an output action list.
-/

namespace Tao

/-! ## Winapi constants (values from the winapi crate / Windows SDK) -/

def MF_STRING : Nat := 0x0000
def MF_GRAYED : Nat := 0x0001
def MF_DISABLED : Nat := 0x0002
def MF_CHECKED : Nat := 0x0008
def MF_POPUP : Nat := 0x0010
def MF_SEPARATOR : Nat := 0x0800

def FVIRTKEY : Nat := 0x01
def FSHIFT : Nat := 0x04
def FCONTROL : Nat := 0x08
def FALT : Nat := 0x10

def VK_CONTROL : Nat := 0x11
def KEYEVENTF_KEYUP : Nat := 0x0002

def WM_DESTROY : Nat := 0x0002
def WM_COMMAND : Nat := 0x0111

def SW_HIDE : Nat := 0
def SW_MINIMIZE : Nat := 6

/-! ## Reserved built-in command IDs (menu.rs lines 31-38) -/

def CUT_ID : Nat := 5001
def COPY_ID : Nat := 5002
def PASTE_ID : Nat := 5003
def SELECT_ALL_ID : Nat := 5004
def HIDE_ID : Nat := 5005
def CLOSE_ID : Nat := 5006
def QUIT_ID : Nat := 5007
def MINIMIZE_ID : Nat := 5008

/-- The eight reserved built-in IDs as a list, for membership statements. -/
def reservedIds : List Nat :=
  [CUT_ID, COPY_ID, PASTE_ID, SELECT_ALL_ID, HIDE_ID, CLOSE_ID, QUIT_ID, MINIMIZE_ID]

/-! ## Keyboard model -/

/-- Modelled from the spec: the logical-key enumeration (`KeyCode` lives in the
crate's keyboard module, outside the provided source): "letters, digits, and
named keys (escape, delete, arrows, page up/down, insert, ...)".  `Fn` stands
for a logical key with no native virtual-key mapping, which the spec requires
to exist ("Returns None ... if the logical key has no native mapping"). -/
inductive KeyCode where
  | KeyA | KeyB | KeyC | KeyD | KeyE | KeyF | KeyG | KeyH | KeyI | KeyJ
  | KeyK | KeyL | KeyM | KeyN | KeyO | KeyP | KeyQ | KeyR | KeyS | KeyT
  | KeyU | KeyV | KeyW | KeyX | KeyY | KeyZ
  | Digit0 | Digit1 | Digit2 | Digit3 | Digit4
  | Digit5 | Digit6 | Digit7 | Digit8 | Digit9
  | Escape | Delete | Insert | PageUp | PageDown
  | ArrowLeft | ArrowRight | ArrowUp | ArrowDown
  | Fn
  deriving DecidableEq, Repr

/-- Modifier bitset of `{control, alt, shift, super}` (ModifiersState). -/
structure ModifiersState where
  control : Bool
  alt : Bool
  shift : Bool
  sup : Bool
  deriving DecidableEq, Repr

/-- Accelerator: a (modifier-set, logical key) pair. -/
structure Accelerator where
  mods : ModifiersState
  key : KeyCode
  deriving DecidableEq, Repr

/-- Modelled from the spec: the consumed key-to-native-virtual-key lookup
(`key_to_vk` in the crate's Windows keyboard module, outside the provided
source).  Letters and digits map to their standard Windows virtual-key codes
(equal to ASCII uppercase / digit codes), the named keys to their fixed VK
constants; `Fn` has no native mapping and yields `none`. -/
def key_to_vk : KeyCode → Option Nat
  | .KeyA => some 0x41 | .KeyB => some 0x42 | .KeyC => some 0x43
  | .KeyD => some 0x44 | .KeyE => some 0x45 | .KeyF => some 0x46
  | .KeyG => some 0x47 | .KeyH => some 0x48 | .KeyI => some 0x49
  | .KeyJ => some 0x4A | .KeyK => some 0x4B | .KeyL => some 0x4C
  | .KeyM => some 0x4D | .KeyN => some 0x4E | .KeyO => some 0x4F
  | .KeyP => some 0x50 | .KeyQ => some 0x51 | .KeyR => some 0x52
  | .KeyS => some 0x53 | .KeyT => some 0x54 | .KeyU => some 0x55
  | .KeyV => some 0x56 | .KeyW => some 0x57 | .KeyX => some 0x58
  | .KeyY => some 0x59 | .KeyZ => some 0x5A
  | .Digit0 => some 0x30 | .Digit1 => some 0x31 | .Digit2 => some 0x32
  | .Digit3 => some 0x33 | .Digit4 => some 0x34 | .Digit5 => some 0x35
  | .Digit6 => some 0x36 | .Digit7 => some 0x37 | .Digit8 => some 0x38
  | .Digit9 => some 0x39
  | .Escape => some 0x1B | .Delete => some 0x2E | .Insert => some 0x2D
  | .PageUp => some 0x21 | .PageDown => some 0x22
  | .ArrowLeft => some 0x25 | .ArrowUp => some 0x26
  | .ArrowRight => some 0x27 | .ArrowDown => some 0x28
  | .Fn => none

/-! ## Accelerator translation (menu.rs `convert_accelerator`, lines 476-511) -/

/-- winuser::ACCEL: native accelerator-table entry. -/
structure ACCEL where
  fVirt : Nat
  key : Nat
  cmd : Nat
  deriving DecidableEq, Repr

/-- Convert a hotkey to an accelerator (menu.rs `convert_accelerator`).
Returns `none` when the logical key has no native virtual-key mapping
(the source additionally logs the failure via `dbg!`, a pure side effect). -/
def convert_accelerator (id : Nat) (key : Accelerator) : Option ACCEL :=
  let virt_key := FVIRTKEY
  let key_mods := key.mods
  let virt_key := if key_mods.control then virt_key ||| FCONTROL else virt_key
  let virt_key := if key_mods.alt then virt_key ||| FALT else virt_key
  let virt_key := if key_mods.shift then virt_key ||| FSHIFT else virt_key
  match key_to_vk key.key with
  | some vk_code =>
      let mod_code := vk_code >>> 8
      let virt_key := if mod_code &&& 0x1 ≠ 0 then virt_key ||| FSHIFT else virt_key
      let virt_key := if mod_code &&& 0x02 ≠ 0 then virt_key ||| FCONTROL else virt_key
      let virt_key := if mod_code &&& 0x04 ≠ 0 then virt_key ||| FALT else virt_key
      some { fVirt := virt_key, key := vk_code &&& 0x00ff, cmd := id }
  | none => none

/-- Decoded native modifier flags of an ACCEL entry.  The native `fVirt`
field encodes only the FCONTROL/FALT/FSHIFT flags (plus FVIRTKEY); Windows
accelerator entries have no flag for the super/Windows modifier, so decoding
always yields `sup := false`. -/
def ACCEL.decodedMods (a : ACCEL) : ModifiersState :=
  { control := decide (a.fVirt &&& FCONTROL ≠ 0)
    alt := decide (a.fVirt &&& FALT ≠ 0)
    shift := decide (a.fVirt &&& FSHIFT ≠ 0)
    sup := false }

/-! ## Hotkey label formatting (menu.rs `format_hotkey`, lines 514-577) -/

/-- Display form of a key in `format_hotkey`: single letters/digits verbatim,
named keys via the fixed short-name table, debug form (the variant name, from
the derived Debug) for anything unmapped. -/
def keyDisplay : KeyCode → String
  | .KeyA => "A" | .KeyB => "B" | .KeyC => "C" | .KeyD => "D" | .KeyE => "E"
  | .KeyF => "F" | .KeyG => "G" | .KeyH => "H" | .KeyI => "I" | .KeyJ => "J"
  | .KeyK => "K" | .KeyL => "L" | .KeyM => "M" | .KeyN => "N" | .KeyO => "O"
  | .KeyP => "P" | .KeyQ => "Q" | .KeyR => "R" | .KeyS => "S" | .KeyT => "T"
  | .KeyU => "U" | .KeyV => "V" | .KeyW => "W" | .KeyX => "X" | .KeyY => "Y"
  | .KeyZ => "Z"
  | .Digit0 => "0" | .Digit1 => "1" | .Digit2 => "2" | .Digit3 => "3"
  | .Digit4 => "4" | .Digit5 => "5" | .Digit6 => "6" | .Digit7 => "7"
  | .Digit8 => "8" | .Digit9 => "9"
  | .Escape => "Esc" | .Delete => "Del" | .Insert => "Ins"
  | .PageUp => "PgUp" | .PageDown => "PgDn"
  | .ArrowLeft => "Left" | .ArrowRight => "Right"
  | .ArrowUp => "Up" | .ArrowDown => "Down"
  | .Fn => "Fn"

/-- Format the hotkey in a Windows-native way (menu.rs `format_hotkey`):
appends modifier fragments in the fixed order Ctrl, Shift, Alt, Windows to
the string `s`, then the key display form. -/
def format_hotkey (key : Accelerator) (s : String) : String :=
  let key_mods := key.mods
  let s := if key_mods.control then s ++ "Ctrl+" else s
  let s := if key_mods.shift then s ++ "Shift+" else s
  let s := if key_mods.alt then s ++ "Alt+" else s
  let s := if key_mods.sup then s ++ "Windows+" else s
  s ++ keyDisplay key.key

/-! ## Menu tree (menu.rs `Menu`, `MenuItemAttributes`, `CustomMenuItem`) -/

/-- MenuId: opaque 16-bit identifier (`pub struct MenuId(pub u16)`). -/
structure MenuId where
  val : Nat
  deriving DecidableEq, Repr

/-- An entry appended to a native menu handle by AppendMenuW, modelled as
data: separators, string items (flags, command id, title) and nested popup
submenus. -/
inductive MenuEntry where
  | separator
  | item (flags : Nat) (id : Nat) (title : String)
  | sub (flags : Nat) (title : String) (entries : List MenuEntry)

/-- MenuItemAttributes(u16, HMENU): the id part; the native handle is not
modelled (all mutators on it are direct native calls). -/
structure MenuItemAttributes where
  fst : Nat
  deriving DecidableEq, Repr

/-- `MenuItemAttributes::id` (menu.rs lines 79-81). -/
def MenuItemAttributes.id (a : MenuItemAttributes) : MenuId :=
  { val := a.fst }

/-- CustomMenuItem wraps MenuItemAttributes (crate-level newtype). -/
structure CustomMenuItem where
  attrs : MenuItemAttributes
  deriving DecidableEq, Repr

/-- Modelled from the spec: `MenuType` (menu's logical origin, window-level
or application-level), defined in the crate's menu module outside the
provided source. -/
inductive MenuType where
  | MenuBar
  | ContextMenu
  deriving DecidableEq, Repr

/-- Modelled from the spec: the built-in `MenuItem` kinds (defined in the
crate's menu module outside the provided source): the nine kinds the source
matches explicitly, plus kinds without a built-in Windows implementation
(here About/Undo/Redo/Zoom/EnterFullScreen), which fall to the source's
catch-all arm. -/
inductive MenuItem where
  | Separator
  | Cut
  | Copy
  | Paste
  | SelectAll
  | Hide
  | CloseWindow
  | Quit
  | Minimize
  | About (name : String)
  | Undo
  | Redo
  | Zoom
  | EnterFullScreen
  deriving DecidableEq, Repr

/-- The Menu structure: the native menu handle's contents are modelled as
the list of entries appended to it, and the `accels` HashMap<u16, ACCEL> as
a partial function from id to entry (HashMap semantics: at most one entry
per key, insertion overwrites). -/
structure Menu where
  items : List MenuEntry
  accels : Nat → Option ACCEL

/-- `Menu::new` / `Menu::new_popup_menu`: empty menu, no accelerators. -/
def Menu.new : Menu :=
  { items := [], accels := fun _ => none }

/-- The MF_ flag word `add_item` computes from `enabled` and `selected`
(menu.rs lines 196-202). -/
def itemFlags (enabled selected : Bool) : Nat :=
  let flags := MF_STRING
  let flags := if !enabled then flags ||| MF_GRAYED else flags
  if selected then flags ||| MF_CHECKED else flags

/-- `Menu::add_item` (menu.rs lines 186-227).  The process-wide identifier
registry MENU_IDS (a Mutex<Vec<u16>>) is threaded explicitly as `menuIds`.
Returns the updated menu, the updated registry, and the CustomMenuItem. -/
def Menu.add_item (m : Menu) (menuIds : List Nat) (menu_id : Nat) (title : String)
    (accelerators : Option Accelerator) (enabled selected : Bool) :
    Menu × List Nat × CustomMenuItem :=
  let flags := itemFlags enabled selected
  let anno_title :=
    match accelerators with
    | some acc => format_hotkey acc (title ++ "\t")
    | none => title
  let m := { m with items := m.items ++ [MenuEntry.item flags menu_id anno_title] }
  let m :=
    match accelerators with
    | some acc =>
        match convert_accelerator menu_id acc with
        | some a =>
            { m with accels := fun k => if k = menu_id then some a else m.accels k }
        | none => m
    | none => m
  (m, menuIds ++ [menu_id], { attrs := { fst := menu_id } })

/-- `Menu::add_submenu` (menu.rs lines 229-246): `mem::take` empties the
submenu's accels, `Hashmap::extend` merges them into the parent's (entries
from the submenu overwrite the parent's on duplicate keys), then the
submenu is appended as a popup entry.  Returns the updated parent and the
submenu in its post-take state. -/
def Menu.add_submenu (m : Menu) (title : String) (enabled : Bool) (submenu : Menu) :
    Menu × Menu :=
  let child_accels := submenu.accels
  let submenu := { submenu with accels := fun _ => none }
  let accels := fun k =>
    match child_accels k with
    | some v => some v
    | none => m.accels k
  let flags := MF_POPUP
  let flags := if !enabled then flags ||| MF_DISABLED else flags
  ({ items := m.items ++ [MenuEntry.sub flags title submenu.items], accels := accels },
   submenu)

/-- `Menu::add_native_item` (menu.rs lines 248-329): appends the built-in
entry for the mapped kinds (reserved ID and fixed label), does nothing for
unmapped kinds, and always returns `none` for the item handle. -/
def Menu.add_native_item (m : Menu) (item : MenuItem) : Menu × Option CustomMenuItem :=
  let m :=
    match item with
    | .Separator => { m with items := m.items ++ [MenuEntry.separator] }
    | .Cut =>
        { m with items := m.items ++ [MenuEntry.item MF_STRING CUT_ID ("&Cut\tCtrl+X")] }
    | .Copy =>
        { m with items := m.items ++ [MenuEntry.item MF_STRING COPY_ID ("&Copy\tCtrl+C")] }
    | .Paste =>
        { m with items := m.items ++ [MenuEntry.item MF_STRING PASTE_ID ("&Paste\tCtrl+V")] }
    | .SelectAll =>
        { m with items :=
            m.items ++ [MenuEntry.item MF_STRING SELECT_ALL_ID ("&Select all\tCtrl+A")] }
    | .Hide =>
        { m with items := m.items ++ [MenuEntry.item MF_STRING HIDE_ID ("&Hide\tCtrl+H")] }
    | .CloseWindow =>
        { m with items := m.items ++ [MenuEntry.item MF_STRING CLOSE_ID ("&Close\tAlt+F4")] }
    | .Quit =>
        { m with items := m.items ++ [MenuEntry.item MF_STRING QUIT_ID ("&Quit")] }
    | .Minimize =>
        { m with items := m.items ++ [MenuEntry.item MF_STRING MINIMIZE_ID ("&Minimize")] }
    | _ => m
  (m, none)

/-! ## Events and dispatch (menu.rs `MenuHandler`, `subclass_proc`) -/

/-- The events the dispatch path can emit (crate `Event`, restricted to the
variants this file constructs): a generic menu event, a window
close-requested event, and loop termination. -/
inductive Event where
  | MenuEvent (menu_id : MenuId) (origin : MenuType) (window_id : Option Nat)
  | WindowCloseRequested (window_id : Nat)
  | LoopDestroyed
  deriving DecidableEq, Repr

/-- MenuHandler: per-window dispatch state.  The event-emission callback is
modelled by returning emitted events in the action list. -/
structure MenuHandler where
  window_id : Option Nat
  menu_type : MenuType
  deriving DecidableEq, Repr

/-- `MenuHandler::send_menu_event` (menu.rs lines 62-68): the event it
builds and hands to the event sender. -/
def MenuHandler.send_menu_event (h : MenuHandler) (menu_id : Nat) : Event :=
  Event.MenuEvent { val := menu_id } h.menu_type h.window_id

/-- EditCommand (menu.rs lines 437-442). -/
inductive EditCommand where
  | Copy
  | Cut
  | Paste
  | SelectAll
  deriving DecidableEq, Repr

/-- One synthetic keyboard INPUT event: virtual key and flags (0 = key-down,
KEYEVENTF_KEYUP = key-up). -/
structure KeyboardInput where
  wVk : Nat
  dwFlags : Nat
  deriving DecidableEq, Repr

/-- `execute_edit_command` (menu.rs lines 443-473): the four INPUT events
handed to SendInput, in order. -/
def execute_edit_command (command : EditCommand) : List KeyboardInput :=
  let key : Nat :=
    match command with
    | .Copy => 0x43
    | .Cut => 0x58
    | .Paste => 0x56
    | .SelectAll => 0x41
  [ { wVk := VK_CONTROL, dwFlags := 0 },
    { wVk := key, dwFlags := 0 },
    { wVk := key, dwFlags := KEYEVENTF_KEYUP },
    { wVk := VK_CONTROL, dwFlags := KEYEVENTF_KEYUP } ]

/-- Observable actions `subclass_proc` performs, in execution order. -/
inductive Action where
  | freeHandler
  | editCommand (c : EditCommand)
  | showWindow (cmd : Nat)
  | sendEvent (e : Event)
  | defSubclassProc
  deriving DecidableEq, Repr

/-- `subclass_proc` (menu.rs lines 379-435): the per-window message
interception routine.  wparam is matched against the eight reserved IDs in
order; otherwise its low-order 16 bits are checked against the registry.
Actions are returned in the order the source performs them. -/
def subclass_proc (handler : MenuHandler) (hwnd : Nat) (msg : Nat) (wparam : Nat)
    (menuIds : List Nat) : List Action :=
  let destroyActs := if msg = WM_DESTROY then [Action.freeHandler] else []
  let mainActs :=
    if msg = WM_COMMAND then
      if wparam = CUT_ID then [Action.editCommand EditCommand.Cut]
      else if wparam = COPY_ID then [Action.editCommand EditCommand.Copy]
      else if wparam = PASTE_ID then [Action.editCommand EditCommand.Paste]
      else if wparam = SELECT_ALL_ID then [Action.editCommand EditCommand.SelectAll]
      else if wparam = HIDE_ID then [Action.showWindow SW_HIDE]
      else if wparam = CLOSE_ID then [Action.sendEvent (Event.WindowCloseRequested hwnd)]
      else if wparam = QUIT_ID then [Action.sendEvent Event.LoopDestroyed]
      else if wparam = MINIMIZE_ID then [Action.showWindow SW_MINIMIZE]
      else
        let menu_id := wparam % 65536
        if menu_id ∈ menuIds then [Action.sendEvent (handler.send_menu_event menu_id)]
        else []
    else [Action.defSubclassProc]
  destroyActs ++ mainActs

/-- The events among a list of actions (what the dispatch emits through the
handler's event sender). -/
def emittedEvents (acts : List Action) : List Event :=
  acts.filterMap fun a =>
    match a with
    | Action.sendEvent e => some e
    | _ => none

/-! ## Helper definitions for the verification -/

/-- Modifier fragments in the fixed order Ctrl, Shift, Alt, Windows: each
present modifier contributes its name followed by a plus sign. -/
def modFragments (mods : ModifiersState) : String :=
  (if mods.control then "Ctrl+" else "") ++ (if mods.shift then "Shift+" else "") ++
    (if mods.alt then "Alt+" else "") ++ (if mods.sup then "Windows+" else "")

/-- The empty modifier set. -/
def noMods : ModifiersState :=
  { control := false, alt := false, shift := false, sup := false }

/-- The modifier set containing only the super key. -/
def superOnly : ModifiersState :=
  { control := false, alt := false, shift := false, sup := true }

/-- A sample accelerator-table entry, held by `sampleChild` under id 7. -/
def sampleAccel : ACCEL := { fVirt := 9, key := 0x41, cmd := 7 }

/-- A sample submenu whose accelerator map holds `sampleAccel` under id 7. -/
def sampleChild : Menu :=
  { items := [], accels := fun k => if k = 7 then some sampleAccel else none }

/-- A sample parent menu with its own entries under ids 7 and 9; id 7
conflicts with `sampleChild`. -/
def sampleParent : Menu :=
  { items := [],
    accels := fun k =>
      if k = 7 then some { fVirt := 1, key := 2, cmd := 7 }
      else if k = 9 then some { fVirt := 1, key := 2, cmd := 9 }
      else none }

/-- A sample dispatch handler. -/
def sampleHandler : MenuHandler := { window_id := none, menu_type := MenuType.MenuBar }

/-- Every virtual-key code produced by the key lookup has an empty high
(implicit-modifier) byte. -/
theorem key_to_vk_no_implicit_mods (k : KeyCode) (vk : Nat) (h : key_to_vk k = some vk) :
    vk >>> 8 = 0 := by
  cases k <;> simp [key_to_vk] at h <;> subst h <;> decide

/-! ## C1: reserved IDs versus custom 16-bit MenuIds -/

/-- C1 (counterexample): the claim that every 16-bit custom MenuId is
distinct from the eight reserved IDs is false: 5001 is a 16-bit value and
equals CUT_ID, and even when 5001 is registered as a custom id,
reserved-first dispatch executes the built-in cut action instead of
emitting a menu event for it. -/
theorem reserved_ids_collide :
    5001 < 65536 ∧ (5001 : Nat) ∈ reservedIds ∧
      subclass_proc sampleHandler 0 WM_COMMAND 5001 [5001] =
        [Action.editCommand EditCommand.Cut] := by
  refine ⟨by decide, by decide, rfl⟩

/-- C1 (amended): every 16-bit MenuId value outside the reserved block
5001-5008 is distinct from all eight reserved IDs, and when registered it
dispatches as a menu event (reserved-first dispatch does not shadow it);
ids inside the block are shadowed, as `reserved_ids_collide` shows. -/
theorem reserved_ids_no_collision (id : Nat) (handler : MenuHandler) (hwnd : Nat)
    (h16 : id < 65536) (hres : id ∉ reservedIds) :
    (id ≠ CUT_ID ∧ id ≠ COPY_ID ∧ id ≠ PASTE_ID ∧ id ≠ SELECT_ALL_ID ∧ id ≠ HIDE_ID ∧
        id ≠ CLOSE_ID ∧ id ≠ QUIT_ID ∧ id ≠ MINIMIZE_ID) ∧
      subclass_proc handler hwnd WM_COMMAND id [id] =
        [Action.sendEvent (handler.send_menu_event id)] := by
  simp only [reservedIds, List.mem_cons, List.not_mem_nil, or_false, not_or] at hres
  obtain ⟨n1, n2, n3, n4, n5, n6, n7, n8⟩ := hres
  have hmod : id % 65536 = id := Nat.mod_eq_of_lt h16
  refine ⟨⟨n1, n2, n3, n4, n5, n6, n7, n8⟩, ?_⟩
  simp [subclass_proc, WM_COMMAND, WM_DESTROY, n1, n2, n3, n4, n5, n6, n7, n8, hmod]

/-- Witness for `reserved_ids_no_collision` at the concrete id 42. -/
theorem reserved_ids_no_collision_witness :
    ((42 : Nat) ≠ CUT_ID ∧ (42 : Nat) ≠ COPY_ID ∧ (42 : Nat) ≠ PASTE_ID ∧
        (42 : Nat) ≠ SELECT_ALL_ID ∧ (42 : Nat) ≠ HIDE_ID ∧ (42 : Nat) ≠ CLOSE_ID ∧
        (42 : Nat) ≠ QUIT_ID ∧ (42 : Nat) ≠ MINIMIZE_ID) ∧
      subclass_proc sampleHandler 0 WM_COMMAND 42 [42] =
        [Action.sendEvent (sampleHandler.send_menu_event 42)] :=
  reserved_ids_no_collision 42 sampleHandler 0 (by decide) (by decide)

/-! ## C2: accelerator modifier round-trip -/

/-- Decoded modifier flags of a converted accelerator: conversion encodes
exactly the control/alt/shift modifiers of the input (plus the implicit
modifiers of the virtual-key code, which are absent for every mapped key),
and can never encode super. -/
theorem convert_accelerator_decoded (id : Nat) (mods : ModifiersState) (k : KeyCode)
    (vk : Nat) (hvk : key_to_vk k = some vk) :
    (convert_accelerator id { mods := mods, key := k }).map ACCEL.decodedMods =
      some { control := mods.control, alt := mods.alt, shift := mods.shift, sup := false } := by
  have h8 : vk >>> 8 = 0 := key_to_vk_no_implicit_mods k vk hvk
  obtain ⟨c, al, s, su⟩ := mods
  simp only [convert_accelerator, hvk, h8]
  cases c <;> cases al <;> cases s <;>
    simp [ACCEL.decodedMods, FVIRTKEY, FCONTROL, FALT, FSHIFT] <;> decide

/-- C2 (counterexample): the claim fails for modifier sets containing super:
with modifiers {super} and key A (which has a native mapping), the stored
entry's decoded native modifier flags are all absent — the native ACCEL
encoding has no flag for the super modifier, so the decoded set does not
match the input set. -/
theorem accel_roundtrip_super_dropped :
    (Menu.new.add_item [] 1 ("Item") (some { mods := superOnly, key := KeyCode.KeyA })
          true false).1.accels 1 = some { fVirt := 1, key := 65, cmd := 1 } ∧
      ACCEL.decodedMods { fVirt := 1, key := 65, cmd := 1 } ≠ superOnly := by
  refine ⟨rfl, by decide⟩

/-- C2 (amended): for every modifier set not containing super and every key
with a native mapping, adding an item with that accelerator and reading the
accelerator map back yields an entry whose decoded modifier flags exactly
match the input modifier set.  (Super cannot round-trip: the native entry
has no flag for it, see `accel_roundtrip_super_dropped`.) -/
theorem accel_roundtrip (m : Menu) (menuIds : List Nat) (id : Nat) (title : String)
    (mods : ModifiersState) (k : KeyCode) (enabled selected : Bool) (vk : Nat)
    (hsup : mods.sup = false) (hvk : key_to_vk k = some vk) :
    (((m.add_item menuIds id title (some { mods := mods, key := k }) enabled
            selected).1).accels id).map ACCEL.decodedMods = some mods := by
  have hd := convert_accelerator_decoded id mods k vk hvk
  have hmods : ({ control := mods.control, alt := mods.alt, shift := mods.shift, sup := false } : ModifiersState) = mods := by
    obtain ⟨c, al, s, su⟩ := mods
    simp at hsup
    subst hsup
    rfl
  rw [hmods] at hd
  cases hc : convert_accelerator id { mods := mods, key := k } with
  | none => rw [hc] at hd; simp at hd
  | some a =>
      rw [hc] at hd
      simp only [Menu.add_item, hc]
      simpa using hd

/-- Witness for `accel_roundtrip`: modifiers {control, shift} with key S. -/
theorem accel_roundtrip_witness :
    (((Menu.new.add_item [] 1 ("Save")
            (some { mods := { control := true, alt := false, shift := true, sup := false },
                    key := KeyCode.KeyS }) true false).1).accels 1).map ACCEL.decodedMods =
      some { control := true, alt := false, shift := true, sup := false } :=
  accel_roundtrip Menu.new [] 1 ("Save")
    { control := true, alt := false, shift := true, sup := false } KeyCode.KeyS true false
    0x53 rfl rfl

/-! ## C3: unmapped accelerator key -/

/-- C3 (counterexample): adding an item whose accelerator key has no native
mapping leaves the accelerator table empty, but the appended menu item's
title is NOT the plain title: it still carries the tab-separated formatted
hotkey suffix (the title is "Open\tFn", not "Open"). -/
theorem unmapped_key_title_annotated :
    (Menu.new.add_item [] 7 ("Open") (some { mods := noMods, key := KeyCode.Fn }) true
          false).1.accels 7 = none ∧
      (Menu.new.add_item [] 7 ("Open") (some { mods := noMods, key := KeyCode.Fn }) true
            false).1.items = [MenuEntry.item MF_STRING 7 ("Open" ++ "\t" ++ "Fn")] ∧
      ("Open" ++ "\t" ++ "Fn" : String) ≠ "Open" := by
  refine ⟨rfl, rfl, by decide⟩

/-- C3 (amended): when the accelerator's key has no native mapping, add_item
leaves the accelerator map unchanged (the entry is omitted; the source only
logs the failure), still appends the menu item and still returns the item
handle — but the appended title carries the formatted hotkey suffix (title
formatting happens before and independently of translation), not the plain
title. -/
theorem add_item_unmapped_key (m : Menu) (menuIds : List Nat) (id : Nat)
    (title : String) (acc : Accelerator) (enabled selected : Bool)
    (hvk : key_to_vk acc.key = none) :
    ((m.add_item menuIds id title (some acc) enabled selected).1).accels = m.accels ∧
      ((m.add_item menuIds id title (some acc) enabled selected).1).items =
        m.items ++ [MenuEntry.item (itemFlags enabled selected) id
          (format_hotkey acc (title ++ "\t"))] ∧
      (m.add_item menuIds id title (some acc) enabled selected).2.2 =
        { attrs := { fst := id } } := by
  have hconv : convert_accelerator id acc = none := by
    simp [convert_accelerator, hvk]
  refine ⟨?_, ?_, rfl⟩
  · simp [Menu.add_item, hconv]
  · simp [Menu.add_item, hconv]

/-- Witness for `add_item_unmapped_key` at a concrete unmapped key. -/
theorem add_item_unmapped_key_witness :
    ((Menu.new.add_item [] 9 ("Open") (some { mods := noMods, key := KeyCode.Fn }) true
          false).1).accels = Menu.new.accels ∧
      ((Menu.new.add_item [] 9 ("Open") (some { mods := noMods, key := KeyCode.Fn }) true
            false).1).items =
        Menu.new.items ++ [MenuEntry.item (itemFlags true false) 9
          (format_hotkey { mods := noMods, key := KeyCode.Fn } ("Open" ++ "\t"))] ∧
      (Menu.new.add_item [] 9 ("Open") (some { mods := noMods, key := KeyCode.Fn }) true
          false).2.2 = { attrs := { fst := 9 } } :=
  add_item_unmapped_key Menu.new [] 9 ("Open") { mods := noMods, key := KeyCode.Fn }
    true false rfl

/-! ## C4: submenu accelerator merge -/

/-- C4: add_submenu transfers every accelerator entry from child to parent
(entries of the child are present in the merged parent map, so on a
duplicate MenuId key the merged child entry wins over the parent's), the
child's own map is empty afterwards, and ids the child does not hold keep
the parent's entry. -/
theorem add_submenu_merges (parent : Menu) (title : String) (enabled : Bool)
    (submenu : Menu) :
    (∀ id a, submenu.accels id = some a →
        ((parent.add_submenu title enabled submenu).1).accels id = some a) ∧
      (∀ id, ((parent.add_submenu title enabled submenu).2).accels id = none) ∧
      ∀ id, submenu.accels id = none →
        ((parent.add_submenu title enabled submenu).1).accels id = parent.accels id := by
  refine ⟨?_, ?_, ?_⟩
  · intro id a h
    simp [Menu.add_submenu, h]
  · intro id
    rfl
  · intro id h
    simp [Menu.add_submenu, h]

/-- Witness for `add_submenu_merges`: merging `sampleChild` into
`sampleParent` moves the child entry for id 7 into the parent (overriding
the parent's own id-7 entry — last merge wins), empties the child, and
keeps the parent's id-9 entry. -/
theorem add_submenu_merges_witness :
    (sampleParent.add_submenu ("File") true sampleChild).1.accels 7 = some sampleAccel ∧
      (sampleParent.add_submenu ("File") true sampleChild).2.accels 7 = none ∧
      (sampleParent.add_submenu ("File") true sampleChild).1.accels 9 =
        some { fVirt := 1, key := 2, cmd := 9 } :=
  ⟨(add_submenu_merges sampleParent ("File") true sampleChild).1 7 sampleAccel (by decide),
    (add_submenu_merges sampleParent ("File") true sampleChild).2.1 7,
    (add_submenu_merges sampleParent ("File") true sampleChild).2.2 9 (by decide)⟩

/-! ## C5: add_item id registration -/

/-- C5: the handle returned by add_item carries exactly the requested id,
and that id is present in the identifier registry immediately after the
call. -/
theorem add_item_registers_id (m : Menu) (menuIds : List Nat) (id : Nat)
    (title : String) (acc : Option Accelerator) (enabled selected : Bool) :
    ((m.add_item menuIds id title acc enabled selected).2.2).attrs.id = { val := id } ∧
      id ∈ (m.add_item menuIds id title acc enabled selected).2.1 := by
  refine ⟨rfl, ?_⟩
  simp [Menu.add_item]

/-! ## C6: hotkey label formatting -/

/-- C6: format_hotkey on modifiers {control, shift} and key A yields exactly
"Ctrl+Shift+A"; in general the present modifiers are rendered in the fixed
order Ctrl, Shift, Alt, Windows, each as a name-plus fragment, followed by
the key's display form. -/
theorem format_hotkey_ctrl_shift_a :
    format_hotkey { mods := { control := true, alt := false, shift := true, sup := false },
                    key := KeyCode.KeyA } "" = "Ctrl+Shift+A" ∧
      ∀ (mods : ModifiersState) (k : KeyCode) (s : String),
        format_hotkey { mods := mods, key := k } s =
          s ++ (modFragments mods ++ keyDisplay k) := by
  refine ⟨rfl, ?_⟩
  intro mods k s
  obtain ⟨c, al, sh, su⟩ := mods
  cases c <;> cases al <;> cases sh <;> cases su <;>
    simp [format_hotkey, modFragments, String.append_assoc, String.empty_append,
      String.append_empty]

/-! ## C7: quit dispatch -/

/-- C7: dispatching a WM_COMMAND carrying the reserved quit ID performs
exactly one action: emitting the loop-termination event through the
dispatch handler (no window action, no menu event, no other event). -/
theorem quit_dispatch (handler : MenuHandler) (hwnd : Nat) (menuIds : List Nat) :
    subclass_proc handler hwnd WM_COMMAND QUIT_ID menuIds =
      [Action.sendEvent Event.LoopDestroyed] := by
  rfl

/-! ## C8: unknown command ids are ignored -/

/-- C8: a WM_COMMAND whose id matches none of the eight reserved IDs and
whose low-order 16 bits are not in the identifier registry produces no
action at all — zero events, silently ignored. -/
theorem unknown_id_silent (handler : MenuHandler) (hwnd : Nat) (wparam : Nat)
    (menuIds : List Nat) (hres : wparam ∉ reservedIds)
    (hreg : wparam % 65536 ∉ menuIds) :
    subclass_proc handler hwnd WM_COMMAND wparam menuIds = [] := by
  simp only [reservedIds, List.mem_cons, List.not_mem_nil, or_false, not_or] at hres
  obtain ⟨n1, n2, n3, n4, n5, n6, n7, n8⟩ := hres
  simp [subclass_proc, WM_COMMAND, WM_DESTROY, n1, n2, n3, n4, n5, n6, n7, n8, hreg]

/-- Witness for `unknown_id_silent` at the concrete command id 9999 with an
empty registry. -/
theorem unknown_id_silent_witness :
    subclass_proc sampleHandler 0 WM_COMMAND 9999 [] = [] :=
  unknown_id_silent sampleHandler 0 9999 [] (by decide) (by decide)

/-! ## C9: synthesized edit shortcuts -/

/-- C9: the synthesized edit shortcut produces exactly four keyboard input
events in the order Ctrl-down, key-down, key-up, Ctrl-up, with key C for
copy, X for cut, V for paste and A for select-all. -/
theorem execute_edit_command_order :
    execute_edit_command EditCommand.Copy =
        [{ wVk := VK_CONTROL, dwFlags := 0 }, { wVk := 0x43, dwFlags := 0 },
          { wVk := 0x43, dwFlags := KEYEVENTF_KEYUP },
          { wVk := VK_CONTROL, dwFlags := KEYEVENTF_KEYUP }] ∧
      execute_edit_command EditCommand.Cut =
        [{ wVk := VK_CONTROL, dwFlags := 0 }, { wVk := 0x58, dwFlags := 0 },
          { wVk := 0x58, dwFlags := KEYEVENTF_KEYUP },
          { wVk := VK_CONTROL, dwFlags := KEYEVENTF_KEYUP }] ∧
      execute_edit_command EditCommand.Paste =
        [{ wVk := VK_CONTROL, dwFlags := 0 }, { wVk := 0x56, dwFlags := 0 },
          { wVk := 0x56, dwFlags := KEYEVENTF_KEYUP },
          { wVk := VK_CONTROL, dwFlags := KEYEVENTF_KEYUP }] ∧
      execute_edit_command EditCommand.SelectAll =
        [{ wVk := VK_CONTROL, dwFlags := 0 }, { wVk := 0x41, dwFlags := 0 },
          { wVk := 0x41, dwFlags := KEYEVENTF_KEYUP },
          { wVk := VK_CONTROL, dwFlags := KEYEVENTF_KEYUP }] :=
  ⟨rfl, rfl, rfl, rfl⟩

/-! ## C10: add_native_item never returns a handle -/

/-- C10: add_native_item returns no item handle for any input kind —
including the kinds that do append a visible native entry, as shown for
Cut, which appends its fixed label under the reserved CUT_ID. -/
theorem add_native_item_no_handle (m : Menu) (item : MenuItem) :
    (m.add_native_item item).2 = none ∧
      (m.add_native_item MenuItem.Cut).1.items =
        m.items ++ [MenuEntry.item MF_STRING CUT_ID ("&Cut\tCtrl+X")] := by
  refine ⟨?_, rfl⟩
  cases item <;> rfl

end Tao
